/-
Verification of the interface-registry core of a BMC network configuration
daemon (phosphor-networkd fork).  The registry (`Manager` in
src/network_manager.cpp) owns association maps from interface indexes and
names to interface records and managed objects; this file embeds those maps,
the registry state, and the mutation operations as executable Lean
definitions, and proves or refutes the specified properties about them.

Modelling conventions:
- C++ `std::unordered_map`/`std::map` becomes `AssocMap`, an association
  list with `insert_or_assign`, `erase`, `find` semantics (keys unique as
  long as the map is built through these operations).
- `std::unordered_set<unsigned>` becomes `NatSet`.
- Machine integers (`u32` indexes, flag words) become `Nat`; bit tests use
  `Nat.land` against the kernel constants.
- IPv4/IPv6 addresses become abstract values (`Nat` payloads) tagged by
  family; the canonical textual form produced by `stdplus::toStr` is
  injective, so a string property holding an address rendering is modelled
  by `Option` of the address itself (`none` models the empty string).
- The raw `EthernetInterface*` stored in `interfacesByIdx` is modelled by
  the owning key of the object in `interfaces` (the map that owns it);
  pointer equality between live objects corresponds to key equality.
- Exceptions become `Except`; `std::abort` becomes `Option` with `none`
  for the aborted computation; log emissions that a property talks about
  are returned as explicit event lists.
-/
import Mathlib

namespace PhosphorNetwork

/-! ## Association maps and sets -/

/-- Association list with the `find`/`insert_or_assign`/`erase` interface of
the C++ map containers used by the registry. -/
structure AssocMap (α β : Type) where
  entries : List (α × β)
deriving DecidableEq

namespace AssocMap

variable {α β : Type} [DecidableEq α]

/-- `map.find(k)`: the first (hence, for maps built by the operations below,
the only) value bound to `k`. -/
def find (m : AssocMap α β) (k : α) : Option β :=
  go m.entries
where
  go : List (α × β) → Option β
    | [] => none
    | (k₂, v) :: t => if k₂ = k then some v else go t

/-- `map.insert_or_assign(k, v)`. -/
def insert (m : AssocMap α β) (k : α) (v : β) : AssocMap α β :=
  ⟨go m.entries⟩
where
  go : List (α × β) → List (α × β)
    | [] => [(k, v)]
    | (k₂, v₂) :: t => if k₂ = k then (k, v) :: t else (k₂, v₂) :: go t

/-- `map.erase(k)`. -/
def erase (m : AssocMap α β) (k : α) : AssocMap α β :=
  ⟨go m.entries⟩
where
  go : List (α × β) → List (α × β)
    | [] => []
    | (k₂, v₂) :: t => if k₂ = k then go t else (k₂, v₂) :: go t

/-- `map.contains(k)` / `map.find(k) != map.end()`. -/
def contains (m : AssocMap α β) (k : α) : Bool :=
  (m.find k).isSome

/-- Apply `f` to the value bound to `k`, if any (models in-place mutation
through an iterator obtained from `find`). -/
def modify (m : AssocMap α β) (k : α) (f : β → β) : AssocMap α β :=
  match m.find k with
  | some v => m.insert k (f v)
  | none => m

/-- The empty map. -/
def empty : AssocMap α β := ⟨[]⟩

end AssocMap

/-- `std::unordered_set<unsigned>` with `emplace`, `erase`, `contains`. -/
structure NatSet where
  elems : List Nat
deriving DecidableEq

namespace NatSet

/-- `set.contains(n)`. -/
def contains (s : NatSet) (n : Nat) : Bool :=
  decide (n ∈ s.elems)

/-- `set.emplace(n)` (no-op when already present). -/
def insert (s : NatSet) (n : Nat) : NatSet :=
  if s.contains n then s else ⟨n :: s.elems⟩

/-- `set.erase(n)`. -/
def erase (s : NatSet) (n : Nat) : NatSet :=
  ⟨s.elems.filter (fun m => decide (m ≠ n))⟩

/-- The empty set. -/
def empty : NatSet := ⟨[]⟩

end NatSet

/-! ## Data model (types.hpp view used by network_manager.cpp) -/

/-- `ARPHRD_ETHER` from `<net/if_arp.h>`: the only admitted hardware type. -/
def ARPHRD_ETHER : Nat := 1

/-- `IFA_F_DEPRECATED` from `<linux/if_addr.h>`. -/
def IFA_F_DEPRECATED : Nat := 0x20

/-- `NUD_PERMANENT` from `<linux/neighbour.h>`. -/
def NUD_PERMANENT : Nat := 0x80

/-- `stdplus::In4Addr`, abstracted to its numeric value. -/
abbrev In4Addr := Nat

/-- `stdplus::In6Addr`, abstracted to its numeric value. -/
abbrev In6Addr := Nat

/-- `stdplus::InAnyAddr`: a `std::variant<In4Addr, In6Addr>`. -/
inductive InAnyAddr where
  | v4 : In4Addr → InAnyAddr
  | v6 : In6Addr → InAnyAddr
deriving DecidableEq

/-- `stdplus::SubnetAny` (address + prefix length), the key of `addrs`. -/
structure IfAddr where
  addr : InAnyAddr
  pfx : Nat
deriving DecidableEq

/-- `InterfaceInfo` decoded from an `RTM_NEWLINK`/`RTM_DELLINK` message. -/
structure InterfaceInfo where
  idx : Nat
  type : Nat
  name : Option String := none
  mac : Option Nat := none
  mtu : Option Nat := none
  flags : Nat := 0
deriving DecidableEq

/-- `AddressInfo` decoded from an `RTM_NEWADDR`/`RTM_DELADDR` message. -/
structure AddressInfo where
  ifidx : Nat
  ifaddr : IfAddr
  scope : Nat := 0
  flags : Nat := 0
deriving DecidableEq

/-- `NeighborInfo` decoded from an `RTM_NEWNEIGH`/`RTM_DELNEIGH` message. -/
structure NeighborInfo where
  ifidx : Nat
  state : Nat
  addr : Option InAnyAddr := none
  mac : Option Nat := none
deriving DecidableEq

/-- `AllIntfInfo`: the per-interface aggregate stored in `intfInfo`. -/
structure AllIntfInfo where
  intf : InterfaceInfo
  defgw4 : Option In4Addr := none
  defgw6 : Option In6Addr := none
  addrs : AssocMap IfAddr AddressInfo := .empty
  staticNeighs : AssocMap InAnyAddr NeighborInfo := .empty
deriving DecidableEq

/-- The managed per-interface object.  The full `EthernetInterface` property
surface is out of scope; this record keeps exactly the pieces the registry
code reads or writes: the name key, the link info (`updateInfo` target), the
owned `addrs` and `staticNeighbors` maps, the two default-gateway string
properties (modelled as the address whose canonical rendering the string
holds, `none` for the empty string — `stdplus::toStr` is injective), and the
managed flag it was constructed with. -/
structure EthernetInterface where
  interfaceName : String
  intf : InterfaceInfo
  addrs : AssocMap IfAddr AddressInfo := .empty
  staticNeighbors : AssocMap InAnyAddr NeighborInfo := .empty
  defaultGateway : Option In4Addr := none
  defaultGateway6 : Option In6Addr := none
  managed : Bool := true
deriving DecidableEq

/-- Modelled from the spec: `EthernetInterface::updateInfo` (the object is a
contract, not in src) refreshes the object's view of the link attributes; it
does not re-key the object. -/
def EthernetInterface.updateInfo (o : EthernetInterface) (i : InterfaceInfo) :
    EthernetInterface :=
  { o with intf := i }

/-- Modelled from the spec: constructing an `EthernetInterface` from an
`AllIntfInfo` under name `n` with the given managed flag (src only calls the
constructor; the object takes over the aggregate's attributes; the config
file contents are out of scope). -/
def newEthernetInterface (n : String) (info : AllIntfInfo) (enabled : Bool) :
    EthernetInterface :=
  { interfaceName := n
    intf := info.intf
    addrs := info.addrs
    staticNeighbors := info.staticNeighs
    defaultGateway := info.defgw4
    defaultGateway6 := info.defgw6
    managed := enabled }

/-- A file of the configuration directory; `removable` models whether
`std::filesystem::remove` succeeds on it. -/
structure ConfFile where
  fname : String
  removable : Bool
deriving DecidableEq

/-- The registry state owned by `Manager`.  `interfacesByIdx` stores the
owning key of the referenced object in `interfaces` (the raw pointer of the
C++ code, under the coherence that each map entry is a distinct object).
`ignoredNames` is the static ignore list (`internal::getIgnoredInterfaces`),
queried once and never mutated.  `confDir` is the configuration directory
contents, used only by `reset`. -/
structure State where
  intfInfo : AssocMap Nat AllIntfInfo := .empty
  interfaces : AssocMap String EthernetInterface := .empty
  interfacesByIdx : AssocMap Nat String := .empty
  ignoredIntf : NatSet := .empty
  systemdNetworkdEnabled : AssocMap Nat Bool := .empty
  ignoredNames : List String := []
  confDir : List ConfFile := []
deriving DecidableEq

/-- Errors thrown (`std::runtime_error`) by the address/neighbor ingestion
paths. -/
inductive NetError where
  | intfNotFoundForAddr (ifidx : Nat)
  | intfNotFoundForNeigh (ifidx : Nat)
deriving DecidableEq

/-- Log events that the verified properties talk about. -/
inductive LogEvent where
  | gwIntfNotFound (ifidx : Nat)
deriving DecidableEq

namespace Manager

/-! ## Registry operations (src/network_manager.cpp) -/

/-- Tail of `Manager::createInterface` after the early-return cases: the
`if (!info.intf.name) { log; return; }` guard followed by construction and
registration of a fresh object. -/
def createInterfaceRest (info : AllIntfInfo) (enabled : Bool) (s : State) :
    State :=
  match info.intf.name with
  | none => s
  | some n =>
    let obj := newEthernetInterface n info enabled
    { s with
      interfaces := s.interfaces.insert n obj
      interfacesByIdx := s.interfacesByIdx.insert info.intf.idx n }

/-- `Manager::createInterface(info, enabled)`: skip ignored indexes; an
object already bound to the index is re-created when the name changed and
updated in place otherwise; an object already bound to the name (index
changed) is updated in place; else a fresh object is created (requires a
name). -/
def createInterface (info : AllIntfInfo) (enabled : Bool) (s : State) :
    State :=
  if s.ignoredIntf.contains info.intf.idx then s
  else
    match s.interfacesByIdx.find info.intf.idx with
    | some oname =>
      match info.intf.name with
      | some n =>
        if n = oname then
          { s with interfaces :=
              (s.interfaces.modify oname (fun o => o.updateInfo info.intf)) }
        else
          createInterfaceRest info enabled
            { s with
              interfaces := s.interfaces.erase oname
              interfacesByIdx := s.interfacesByIdx.erase info.intf.idx }
      | none =>
        { s with interfaces :=
            (s.interfaces.modify oname (fun o => o.updateInfo info.intf)) }
    | none =>
      match info.intf.name with
      | some n =>
        match s.interfaces.find n with
        | some _ =>
          { s with interfaces :=
              (s.interfaces.modify n (fun o => o.updateInfo info.intf)) }
        | none => createInterfaceRest info enabled s
      | none => createInterfaceRest info enabled s

/-- The part of `Manager::addInterface` after both ignore filters: upsert
`intfInfo[idx].intf` and, when the supervisor state for the index is known,
call `createInterface` on the updated aggregate with it. -/
def addInterfaceUpsert (info : InterfaceInfo) (s : State) : State :=
  let entry : AllIntfInfo :=
    match s.intfInfo.find info.idx with
    | some all => { all with intf := info }
    | none => { intf := info }
  let s₁ := { s with intfInfo := s.intfInfo.insert info.idx entry }
  match s.systemdNetworkdEnabled.find info.idx with
  | some enabled => createInterface entry enabled s₁
  | none => s₁

/-- `Manager::addInterface(info)`: filter by hardware type, then by the
static name ignore list (both filters insert into `ignoredIntf` and return);
otherwise upsert `intfInfo[idx].intf` and, when the supervisor state for the
index is known, call `createInterface` with it. -/
def addInterface (info : InterfaceInfo) (s : State) : State :=
  if info.type ≠ ARPHRD_ETHER then
    { s with ignoredIntf := s.ignoredIntf.insert info.idx }
  else
    match info.name with
    | some n =>
      if n ∈ s.ignoredNames then
        { s with ignoredIntf := s.ignoredIntf.insert info.idx }
      else addInterfaceUpsert info s
    | none => addInterfaceUpsert info s

/-- `Manager::removeInterface(info)`.  `none` models `std::abort` on the
idx↔name desync.  Otherwise: erase the idx binding when present (else erase
the idx from `ignoredIntf`), erase the located name binding when present,
and erase `intfInfo[idx]`. -/
def removeInterface (info : InterfaceInfo) (s : State) : Option State :=
  let iit := s.interfacesByIdx.find info.idx
  let nitRes : Option (Option String) :=
    match info.name with
    | some n =>
      match s.interfaces.find n with
      | some _ =>
        match iit with
        | some oname => if oname = n then some (some n) else none
        | none => some (some n)
      | none => some none
    | none =>
      match iit with
      | some oname =>
        some (if s.interfaces.contains oname then some oname else none)
      | none => some none
  match nitRes with
  | none => none
  | some nit =>
    let s₁ :=
      match iit with
      | some _ => { s with interfacesByIdx := s.interfacesByIdx.erase info.idx }
      | none => { s with ignoredIntf := s.ignoredIntf.erase info.idx }
    let s₂ :=
      match nit with
      | some n => { s₁ with interfaces := s₁.interfaces.erase n }
      | none => s₁
    some { s₂ with intfInfo := s₂.intfInfo.erase info.idx }

/-- `EthernetInterface::addAddr` is not in src; modelled from the spec: the
object owns its addresses, and the registry mirrors the change into it. -/
def mirrorAddAddr (o : EthernetInterface) (info : AddressInfo) :
    EthernetInterface :=
  { o with addrs := o.addrs.insert info.ifaddr info }

/-- `Manager::addAddress(info)`: drop `DEPRECATED` entries; store into
`intfInfo[ifidx].addrs` and mirror into the managed object when one is
bound to the index; throw when the index is neither known nor ignored. -/
def addAddress (info : AddressInfo) (s : State) : Except NetError State :=
  if info.flags.land IFA_F_DEPRECATED ≠ 0 then
    .ok s
  else
    match s.intfInfo.find info.ifidx with
    | some all =>
      let s₁ := { s with intfInfo :=
          (s.intfInfo.insert info.ifidx
            { all with addrs := all.addrs.insert info.ifaddr info }) }
      match s₁.interfacesByIdx.find info.ifidx with
      | some oname =>
        .ok { s₁ with interfaces :=
            (s₁.interfaces.modify oname (fun o => mirrorAddAddr o info)) }
      | none => .ok s₁
    | none =>
      if s.ignoredIntf.contains info.ifidx then .ok s
      else .error (.intfNotFoundForAddr info.ifidx)

/-- `Manager::removeAddress(info)`: the outer lookup is `interfacesByIdx`;
when a managed object is bound to the index, erase the key from the object's
`addrs` and then, if an `intfInfo` entry exists, from its `addrs` too;
otherwise do nothing. -/
def removeAddress (info : AddressInfo) (s : State) : State :=
  match s.interfacesByIdx.find info.ifidx with
  | some oname =>
    let s₁ := { s with interfaces :=
        (s.interfaces.modify oname
          (fun o => { o with addrs := o.addrs.erase info.ifaddr })) }
    match s₁.intfInfo.find info.ifidx with
    | some all =>
      { s₁ with intfInfo :=
          (s₁.intfInfo.insert info.ifidx
            { all with addrs := all.addrs.erase info.ifaddr }) }
    | none => s₁
  | none => s

/-- `EthernetInterface::addStaticNeigh` is not in src; modelled from the
spec: the object owns its static neighbors. -/
def mirrorAddStaticNeigh (o : EthernetInterface) (a : InAnyAddr)
    (info : NeighborInfo) : EthernetInterface :=
  { o with staticNeighbors := o.staticNeighbors.insert a info }

/-- `Manager::addNeighbor(info)`: only `PERMANENT` entries with a present
address are retained; store into `intfInfo[ifidx].staticNeighs` and mirror
into the managed object when one is bound; throw when the index is neither
known nor ignored. -/
def addNeighbor (info : NeighborInfo) (s : State) : Except NetError State :=
  if info.state.land NUD_PERMANENT = 0 then .ok s
  else
    match info.addr with
    | none => .ok s
    | some a =>
      match s.intfInfo.find info.ifidx with
      | some all =>
        let s₁ := { s with intfInfo :=
            (s.intfInfo.insert info.ifidx
              { all with staticNeighs := all.staticNeighs.insert a info }) }
        match s₁.interfacesByIdx.find info.ifidx with
        | some oname =>
          .ok { s₁ with interfaces :=
              (s₁.interfaces.modify oname
                (fun o => mirrorAddStaticNeigh o a info)) }
        | none => .ok s₁
      | none =>
        if s.ignoredIntf.contains info.ifidx then .ok s
        else .error (.intfNotFoundForNeigh info.ifidx)

/-- `Manager::addDefGw(ifidx, addr)`: when the index is known, replace the
per-family gateway of `intfInfo[ifidx]` and mirror the rendering into the
bound object's default-gateway property; when it is neither known nor
ignored, log an error (returned as the event list) — no exception, no state
change; when ignored, do nothing silently. -/
def addDefGw (ifidx : Nat) (addr : InAnyAddr) (s : State) :
    State × List LogEvent :=
  match s.intfInfo.find ifidx with
  | some all =>
    let all₂ :=
      match addr with
      | .v4 a => { all with defgw4 := some a }
      | .v6 a => { all with defgw6 := some a }
    let s₁ := { s with intfInfo := s.intfInfo.insert ifidx all₂ }
    match s₁.interfacesByIdx.find ifidx with
    | some oname =>
      ({ s₁ with interfaces :=
          (s₁.interfaces.modify oname (fun o =>
            match addr with
            | .v4 a => { o with defaultGateway := some a }
            | .v6 a => { o with defaultGateway6 := some a })) }, [])
    | none => (s₁, [])
  | none =>
    if s.ignoredIntf.contains ifidx then (s, [])
    else (s, [.gwIntfNotFound ifidx])

/-- `Manager::removeDefGw(ifidx, addr)`: when the index is known, reset the
per-family gateway of `intfInfo[ifidx]` only if it still equals `addr`, and
clear the bound object's default-gateway property only if its rendering
still equals that of `addr`. -/
def removeDefGw (ifidx : Nat) (addr : InAnyAddr) (s : State) : State :=
  match s.intfInfo.find ifidx with
  | some all =>
    let all₂ :=
      match addr with
      | .v4 a => if all.defgw4 = some a then { all with defgw4 := none } else all
      | .v6 a => if all.defgw6 = some a then { all with defgw6 := none } else all
    let s₁ := { s with intfInfo := s.intfInfo.insert ifidx all₂ }
    match s₁.interfacesByIdx.find ifidx with
    | some oname =>
      { s₁ with interfaces :=
          (s₁.interfaces.modify oname (fun o =>
            match addr with
            | .v4 a =>
              if o.defaultGateway = some a then
                { o with defaultGateway := none }
              else o
            | .v6 a =>
              if o.defaultGateway6 = some a then
                { o with defaultGateway6 := none }
              else o)) }
    | none => s₁
  | none => s

/-- Errors surfaced by `Manager::vlan` on the IPC response. -/
inductive VlanError where
  | invalidArgument
  | resourceNotFound
deriving DecidableEq

/-- Modelled from the spec: `EthernetInterface::createVLAN` (the object is a
contract, not in src) creates the VLAN child and returns the new object's
identifier. -/
def createVLAN (o : EthernetInterface) (id : Nat) : String :=
  o.interfaceName ++ "_" ++ toString id

/-- `Manager::vlan(interfaceName, id)`: reject out-of-range ids, then look
up the parent by name; on success delegate to the parent object.  The state
is threaded explicitly: both error paths throw before any mutation, and the
delegated creation itself is outside the registry core. -/
def vlan (interfaceName : String) (id : Nat) (s : State) :
    Except VlanError String × State :=
  if id = 0 ∨ 4095 ≤ id then (.error .invalidArgument, s)
  else
    match s.interfaces.find interfaceName with
    | none => (.error .resourceNotFound, s)
    | some obj => (.ok (createVLAN obj id), s)

/-- `Manager::reset()`: attempt to delete every file of the configuration
directory, ignoring per-file errors (files whose removal fails stay); the
in-memory registry is untouched. -/
def reset (s : State) : State :=
  { s with confDir := s.confDir.filter (fun f => !f.removable) }

/-- Modelled from the spec: `Manager::handleAdminState(state, ifidx)`.  The
source's else-branch contains `if (exist config)` and `tmp.inf`, which are
not valid C++; per the specification (§9, Open Questions) that unfinished
branch is treated as absent, leaving the plain
`createInterface(it->second, managed)` call.  `initialized`/`linger` erase
the supervisor state for the index; every other string records
`managed := state != "unmanaged"` and, when `intfInfo` has the entry,
calls `createInterface` with it. -/
def handleAdminState (state : String) (ifidx : Nat) (s : State) : State :=
  if state = "initialized" ∨ state = "linger" then
    { s with systemdNetworkdEnabled := s.systemdNetworkdEnabled.erase ifidx }
  else
    let managed : Bool := state ≠ "unmanaged"
    let s₁ := { s with systemdNetworkdEnabled :=
        (s.systemdNetworkdEnabled.insert ifidx managed) }
    match s₁.intfInfo.find ifidx with
    | some all => createInterface all managed s₁
    | none => s₁

end Manager

/-! ## Deferred reload coordinator (the callback installed by the Manager
constructor on the `DelayedExecutor`) -/

/-- A registered reload hook: an identifier and whether invoking it
succeeds (a failing hook throws and is caught in place). -/
structure Hook where
  id : Nat
  ok : Bool
deriving DecidableEq

/-- Observable events of one firing of the reload callback. -/
inductive REvent where
  | hookRun (id : Nat)
  | hookFailLogged (id : Nat)
  | reloadRPC
  | reloadedLogged
  | reloadFailLogged
deriving DecidableEq

/-- Invoking one hook inside its `try`/`catch`: the hook runs; a failure is
logged and does not escape. -/
def runHook (h : Hook) : List REvent :=
  REvent.hookRun h.id :: (if h.ok then [] else [REvent.hookFailLogged h.id])

/-- The two hook lists held by the Manager. -/
structure HookState where
  reloadPreHooks : List Hook
  reloadPostHooks : List Hook
deriving DecidableEq

/-- The reload callback set in the Manager constructor, mirroring its
statement order: run all pre-hooks (failures caught and logged); clear the
pre-hook list; issue the supervisor `Reload` RPC, and on failure log and
clear the post-hook list; iterate the (possibly just cleared) post-hook
list the same way; clear the post-hook list. -/
def fireReloadCallback (rpcOk : Bool) (hs : HookState) :
    List REvent × HookState :=
  let ev₁ := hs.reloadPreHooks.flatMap runHook
  let hs₁ := { hs with reloadPreHooks := [] }
  let step₂ : List REvent × HookState :=
    if rpcOk then ([REvent.reloadRPC, REvent.reloadedLogged], hs₁)
    else ([REvent.reloadRPC, REvent.reloadFailLogged],
          { hs₁ with reloadPostHooks := [] })
  let ev₃ := step₂.2.reloadPostHooks.flatMap runHook
  let hs₃ := { step₂.2 with reloadPostHooks := [] }
  (ev₁ ++ step₂.1 ++ ev₃, hs₃)

/-- The per-family gateway field of an aggregate, selected by the family of
an address (the field `addDefGw`/`removeDefGw` act on for that address). -/
def gwOf : InAnyAddr → AllIntfInfo → Option Nat
  | InAnyAddr.v4 _, all => all.defgw4
  | InAnyAddr.v6 _, all => all.defgw6

/-- The per-family default-gateway property of a managed object, selected
by the family of an address. -/
def objGwOf : InAnyAddr → EthernetInterface → Option Nat
  | InAnyAddr.v4 _, o => o.defaultGateway
  | InAnyAddr.v6 _, o => o.defaultGateway6

/-- The payload of an address, forgetting the family tag. -/
def addrVal : InAnyAddr → Nat
  | InAnyAddr.v4 a => a
  | InAnyAddr.v6 a => a

/-! ## Auxiliary lemmas -/

namespace AssocMap

variable {α β : Type} [DecidableEq α]

@[simp] theorem find_empty (k : α) : (empty : AssocMap α β).find k = none := rfl

@[simp] theorem find_insert_self (m : AssocMap α β) (k : α) (v : β) :
    (m.insert k v).find k = some v := by
  obtain ⟨l⟩ := m
  induction l with
  | nil => simp [insert, insert.go, find, find.go]
  | cons h t ih =>
    obtain ⟨k₂, v₂⟩ := h
    by_cases hk : k₂ = k <;>
      simp_all [insert, insert.go, find, find.go, hk]

theorem find_insert_ne (m : AssocMap α β) (k k' : α) (v : β) (h : k' ≠ k) :
    (m.insert k v).find k' = m.find k' := by
  obtain ⟨l⟩ := m
  induction l with
  | nil => simp [insert, insert.go, find, find.go, Ne.symm h]
  | cons hd t ih =>
    obtain ⟨k₂, v₂⟩ := hd
    by_cases hk : k₂ = k <;>
      simp_all [insert, insert.go, find, find.go, hk, Ne.symm h]

@[simp] theorem find_erase_self (m : AssocMap α β) (k : α) :
    (m.erase k).find k = none := by
  obtain ⟨l⟩ := m
  induction l with
  | nil => simp [erase, erase.go, find, find.go]
  | cons hd t ih =>
    obtain ⟨k₂, v₂⟩ := hd
    by_cases hk : k₂ = k <;>
      simp_all [erase, erase.go, find, find.go, hk]

theorem find_erase_ne (m : AssocMap α β) (k k' : α) (h : k' ≠ k) :
    (m.erase k).find k' = m.find k' := by
  obtain ⟨l⟩ := m
  induction l with
  | nil => simp [erase, erase.go, find, find.go]
  | cons hd t ih =>
    obtain ⟨k₂, v₂⟩ := hd
    by_cases hk : k₂ = k <;>
      simp_all [erase, erase.go, find, find.go, hk, Ne.symm h]

theorem erase_of_not_contains (m : AssocMap α β) (k : α)
    (h : m.contains k = false) : m.erase k = m := by
  obtain ⟨l⟩ := m
  induction l with
  | nil => rfl
  | cons hd t ih =>
    obtain ⟨k₂, v₂⟩ := hd
    by_cases hk : k₂ = k
    · simp [contains, find, find.go, hk] at h
    · simp only [contains, find, find.go, hk, if_false] at h
      have := ih h
      simp only [erase, erase.go, hk, if_false] at this ⊢
      simpa [erase] using congrArg (fun x => AssocMap.mk ((k₂, v₂) :: x.entries)) this

@[simp] theorem contains_iff (m : AssocMap α β) (k : α) :
    m.contains k = true ↔ ∃ v, m.find k = some v := by
  simp [contains, Option.isSome_iff_exists]

theorem contains_eq_false (m : AssocMap α β) (k : α) :
    m.contains k = false ↔ m.find k = none := by
  simp [contains, Option.isSome]
  cases m.find k <;> simp

end AssocMap

namespace NatSet

@[simp] theorem contains_insert_self (s : NatSet) (n : Nat) :
    (s.insert n).contains n = true := by
  by_cases h : n ∈ s.elems <;> simp [insert, contains, h]

@[simp] theorem contains_erase_self (s : NatSet) (n : Nat) :
    (s.erase n).contains n = false := by
  simp [erase, contains, List.mem_filter]

theorem contains_insert_ne (s : NatSet) (n m : Nat) (h : m ≠ n) :
    (s.insert n).contains m = s.contains m := by
  by_cases hn : n ∈ s.elems <;> simp [insert, contains, hn, h]

theorem contains_erase_ne (s : NatSet) (n m : Nat) (h : m ≠ n) :
    (s.erase n).contains m = s.contains m := by
  simp [erase, contains, List.mem_filter, h]

end NatSet

theorem AssocMap.find_modify_self {α β : Type} [DecidableEq α]
    (m : AssocMap α β) (k : α) (f : β → β) (v : β) (h : m.find k = some v) :
    (m.modify k f).find k = some (f v) := by
  simp [AssocMap.modify, h]

theorem AssocMap.find_modify_ne {α β : Type} [DecidableEq α]
    (m : AssocMap α β) (k k' : α) (f : β → β) (h : k' ≠ k) :
    (m.modify k f).find k' = m.find k' := by
  unfold AssocMap.modify
  cases hf : m.find k with
  | none => rfl
  | some v => exact AssocMap.find_insert_ne m k k' (f v) h

namespace Manager

theorem createInterfaceRest_intfInfo (info : AllIntfInfo) (e : Bool)
    (s : State) : (createInterfaceRest info e s).intfInfo = s.intfInfo := by
  cases hn : info.intf.name <;> simp [createInterfaceRest, hn]

theorem createInterfaceRest_ignoredIntf (info : AllIntfInfo) (e : Bool)
    (s : State) :
    (createInterfaceRest info e s).ignoredIntf = s.ignoredIntf := by
  cases hn : info.intf.name <;> simp [createInterfaceRest, hn]

theorem createInterfaceRest_systemdNetworkdEnabled (info : AllIntfInfo)
    (e : Bool) (s : State) :
    (createInterfaceRest info e s).systemdNetworkdEnabled =
      s.systemdNetworkdEnabled := by
  cases hn : info.intf.name <;> simp [createInterfaceRest, hn]

/-- `createInterface` only touches the object maps: `intfInfo` is
preserved. -/
theorem createInterface_intfInfo (info : AllIntfInfo) (e : Bool) (s : State) :
    (createInterface info e s).intfInfo = s.intfInfo := by
  unfold createInterface
  split
  · rfl
  · split <;> (try split) <;> (try split) <;>
      simp [createInterfaceRest_intfInfo]

/-- `createInterface` only touches the object maps: `ignoredIntf` is
preserved. -/
theorem createInterface_ignoredIntf (info : AllIntfInfo) (e : Bool)
    (s : State) :
    (createInterface info e s).ignoredIntf = s.ignoredIntf := by
  unfold createInterface
  split
  · rfl
  · split <;> (try split) <;> (try split) <;>
      simp [createInterfaceRest_ignoredIntf]

/-- `createInterface` only touches the object maps:
`systemdNetworkdEnabled` is preserved. -/
theorem createInterface_systemdNetworkdEnabled (info : AllIntfInfo) (e : Bool)
    (s : State) :
    (createInterface info e s).systemdNetworkdEnabled =
      s.systemdNetworkdEnabled := by
  unfold createInterface
  split
  · rfl
  · split <;> (try split) <;> (try split) <;>
      simp [createInterfaceRest_systemdNetworkdEnabled]

/-- The post-filter tail of `addInterface` upserts `intfInfo` at the index
and leaves `ignoredIntf` untouched (also through the `createInterface`
call). -/
theorem addInterfaceUpsert_spec (info : InterfaceInfo) (s : State) :
    (addInterfaceUpsert info s).ignoredIntf = s.ignoredIntf ∧
    (addInterfaceUpsert info s).intfInfo = s.intfInfo.insert info.idx
      (match s.intfInfo.find info.idx with
       | some all => { all with intf := info }
       | none => { intf := info }) := by
  unfold addInterfaceUpsert
  cases he : s.systemdNetworkdEnabled.find info.idx with
  | none => cases hf : s.intfInfo.find info.idx <;> simp [hf]
  | some b =>
    cases hf : s.intfInfo.find info.idx <;>
      simp [hf, createInterface_ignoredIntf, createInterface_intfInfo]

end Manager

/-! ## Claim theorems -/

/-- C9: `reset()` deletes every file in the configuration directory whose
deletion succeeds, ignoring per-file deletion errors (failed files simply
remain, no exception escapes), and leaves all in-memory registry state —
`intfInfo`, `interfaces`, `interfacesByIdx`, `ignoredIntf`,
`systemdNetworkdEnabled` — unchanged. -/
theorem reset_deletes_files_preserves_registry (s : State) :
    (Manager.reset s).intfInfo = s.intfInfo ∧
    (Manager.reset s).interfaces = s.interfaces ∧
    (Manager.reset s).interfacesByIdx = s.interfacesByIdx ∧
    (Manager.reset s).ignoredIntf = s.ignoredIntf ∧
    (Manager.reset s).systemdNetworkdEnabled = s.systemdNetworkdEnabled ∧
    (∀ f ∈ s.confDir, f.removable = true → f ∉ (Manager.reset s).confDir) ∧
    (∀ f ∈ (Manager.reset s).confDir, f ∈ s.confDir ∧ f.removable = false) := by
  refine ⟨rfl, rfl, rfl, rfl, rfl, ?_, ?_⟩
  · intro f hf hrem hmem
    rcases List.mem_filter.1 hmem with ⟨-, hkeep⟩
    simp [hrem] at hkeep
  · intro f hf
    rcases List.mem_filter.1 hf with ⟨hmem, hkeep⟩
    refine ⟨hmem, ?_⟩
    simpa using hkeep

/-- Witness for C9 at a concrete state: a removable file is gone after
`reset`. -/
theorem reset_deletes_files_preserves_registry_witness :
    (⟨"eth0.network", true⟩ : ConfFile) ∉
      (Manager.reset
        { confDir := [⟨"eth0.network", true⟩, ⟨"keep.network", false⟩] } :
        State).confDir :=
  (reset_deletes_files_preserves_registry
    { confDir := [⟨"eth0.network", true⟩, ⟨"keep.network", false⟩] }).2.2.2.2.2.1
    ⟨"eth0.network", true⟩ (by decide) (by decide)

/-- C8: one firing of the deferred-reload callback runs every pre-hook in
insertion order with each failure logged and not aborting the sequence, then
issues the supervisor `Reload` RPC, runs the post-hooks (same policy) if and
only if the RPC succeeded, and leaves both hook lists empty regardless of
the RPC outcome. -/
theorem fireReloadCallback_spec (pre post : List Hook) (rpcOk : Bool) :
    (fireReloadCallback rpcOk ⟨pre, post⟩).2 = ⟨[], []⟩ ∧
    (fireReloadCallback rpcOk ⟨pre, post⟩).1 =
      pre.flatMap runHook ++ [REvent.reloadRPC] ++
        (if rpcOk then REvent.reloadedLogged :: post.flatMap runHook
         else [REvent.reloadFailLogged]) ∧
    (∀ h ∈ pre, REvent.hookRun h.id ∈ (fireReloadCallback rpcOk ⟨pre, post⟩).1) := by
  refine ⟨?_, ?_, ?_⟩
  · cases rpcOk <;> rfl
  · cases rpcOk <;> simp [fireReloadCallback]
  · intro h hmem
    cases rpcOk <;>
      · simp only [fireReloadCallback, List.mem_append]
        exact Or.inl (Or.inl (List.mem_flatMap.2 ⟨h, hmem, by simp [runHook]⟩))

/-- Witness for C8 at a concrete firing: a failing pre-hook still runs
(and the hook lists end empty). -/
theorem fireReloadCallback_spec_witness :
    (fireReloadCallback true ⟨[⟨1, true⟩, ⟨2, false⟩], [⟨3, true⟩]⟩).2 =
        ⟨[], []⟩ ∧
      REvent.hookRun 2 ∈
        (fireReloadCallback true ⟨[⟨1, true⟩, ⟨2, false⟩], [⟨3, true⟩]⟩).1 :=
  ⟨(fireReloadCallback_spec [⟨1, true⟩, ⟨2, false⟩] [⟨3, true⟩] true).1,
   (fireReloadCallback_spec [⟨1, true⟩, ⟨2, false⟩] [⟨3, true⟩] true).2.2
     ⟨2, false⟩ (by decide)⟩

/-- C7: `vlan(name, id)` fails with "invalid argument" exactly when `id = 0`
or `id ≥ 4095`; otherwise it fails with "resource not found" exactly when no
managed interface exists under `name`; otherwise it delegates to the parent
object and returns the new object's identifier; the registry state is
unchanged in both error cases. -/
theorem vlan_spec (s : State) (name : String) (id : Nat) :
    ((Manager.vlan name id s).1 = Except.error Manager.VlanError.invalidArgument ↔
      id = 0 ∨ 4095 ≤ id) ∧
    (¬(id = 0 ∨ 4095 ≤ id) →
      ((Manager.vlan name id s).1 = Except.error Manager.VlanError.resourceNotFound ↔
        s.interfaces.find name = none)) ∧
    (∀ obj, ¬(id = 0 ∨ 4095 ≤ id) → s.interfaces.find name = some obj →
      (Manager.vlan name id s).1 = Except.ok (Manager.createVLAN obj id)) ∧
    ((Manager.vlan name id s).2 = s) := by
  unfold Manager.vlan
  by_cases hid : id = 0 ∨ 4095 ≤ id
  · refine ⟨by simp [hid], fun h => absurd hid h, fun obj h => absurd hid h,
      by simp [hid]⟩
  · cases hf : s.interfaces.find name with
    | none => exact ⟨by simp [hid], by simp [hid, hf], by simp [hf], by simp [hid, hf]⟩
    | some obj =>
      refine ⟨by simp [hid, hf], by simp [hid, hf], ?_, by simp [hid, hf]⟩
      intro obj₂ h hsome
      injection hsome with hobj
      subst hobj
      simp [hid]

/-- Witness for C7 at concrete inputs: id 0 is rejected, an unknown parent
is "resource not found", and a valid call returns the delegated
identifier. -/
theorem vlan_spec_witness :
    ((Manager.vlan "eth0" 0 ({} : State)).1 =
        Except.error Manager.VlanError.invalidArgument) ∧
      ((Manager.vlan "eth0" 100 ({} : State)).1 =
        Except.error Manager.VlanError.resourceNotFound) := by
  constructor
  · exact (vlan_spec {} "eth0" 0).1.2 (Or.inl rfl)
  · exact ((vlan_spec {} "eth0" 100).2.1 (by decide)).2 rfl

/-- C10: for an ifidx with no `intfInfo` entry that is not ignored,
`addDefGw` logs an error and leaves the registry unchanged (its return type
is total: no exception), whereas `addAddress` (for a non-DEPRECATED address)
and `addNeighbor` (for a PERMANENT neighbor with a present address) raise a
runtime error in the same situation; for an ignored ifidx `addDefGw` is a
silent no-op. -/
theorem addDefGw_logs_while_add_paths_throw (s : State) (i : Nat)
    (addr : InAnyAddr) (ainfo : AddressInfo) (ninfo : NeighborInfo)
    (hmiss : s.intfInfo.find i = none) :
    (s.ignoredIntf.contains i = false →
      Manager.addDefGw i addr s = (s, [LogEvent.gwIntfNotFound i])) ∧
    (s.ignoredIntf.contains i = true →
      Manager.addDefGw i addr s = (s, [])) ∧
    (s.ignoredIntf.contains i = false → ainfo.ifidx = i →
      ainfo.flags.land IFA_F_DEPRECATED = 0 →
      Manager.addAddress ainfo s =
        Except.error (NetError.intfNotFoundForAddr i)) ∧
    (s.ignoredIntf.contains i = false → ninfo.ifidx = i →
      ninfo.state.land NUD_PERMANENT ≠ 0 → (∃ x, ninfo.addr = some x) →
      Manager.addNeighbor ninfo s =
        Except.error (NetError.intfNotFoundForNeigh i)) := by
  refine ⟨?_, ?_, ?_, ?_⟩
  · intro hign
    simp [Manager.addDefGw, hmiss, hign]
  · intro hign
    simp [Manager.addDefGw, hmiss, hign]
  · intro hign hidx hdep
    subst hidx
    simp [Manager.addAddress, hmiss, hign, hdep]
  · intro hign hidx hperm haddr
    subst hidx
    obtain ⟨x, hx⟩ := haddr
    simp [Manager.addNeighbor, hmiss, hign, hperm, hx]

/-- Witness for C10 at concrete inputs on the empty registry. -/
theorem addDefGw_logs_while_add_paths_throw_witness :
    Manager.addDefGw 5 (InAnyAddr.v4 1) ({} : State) =
        ({}, [LogEvent.gwIntfNotFound 5]) ∧
      Manager.addAddress ⟨5, ⟨InAnyAddr.v4 1, 24⟩, 0, 0⟩ ({} : State) =
        Except.error (NetError.intfNotFoundForAddr 5) ∧
      Manager.addNeighbor ⟨5, 0x80, some (InAnyAddr.v4 2), some 1⟩
          ({} : State) =
        Except.error (NetError.intfNotFoundForNeigh 5) := by
  have h := addDefGw_logs_while_add_paths_throw {} 5 (InAnyAddr.v4 1)
    ⟨5, ⟨InAnyAddr.v4 1, 24⟩, 0, 0⟩ ⟨5, 0x80, some (InAnyAddr.v4 2), some 1⟩
    rfl
  exact ⟨h.1 rfl, h.2.2.1 rfl rfl (by decide),
    h.2.2.2 rfl rfl (by decide) ⟨InAnyAddr.v4 2, rfl⟩⟩

/-- C3 counterexample: a `DEPRECATED` address for an ifidx that has no
`intfInfo` entry and is not ignored does NOT raise an error — the
DEPRECATED drop happens before the unknown-interface check — refuting
"addAddress raises an error exactly when the ifidx has no intf_info entry
and is not in ignored_intf" for every input. -/
theorem addAddress_deprecated_unknown_counterexample :
    (({} : State).intfInfo.find 5 = none) ∧
    (({} : State).ignoredIntf.contains 5 = false) ∧
    Manager.addAddress ⟨5, ⟨InAnyAddr.v4 1, 24⟩, 0, IFA_F_DEPRECATED⟩
        ({} : State) = Except.ok ({} : State) := by
  exact ⟨rfl, rfl, rfl⟩

/-- C3 (amended): `addAddress` raises an error exactly when the address does
not carry the `DEPRECATED` flag AND its ifidx has no `intfInfo` entry AND
the ifidx is not in `ignoredIntf`; `DEPRECATED` addresses are dropped at
ingestion (before any check, so they never raise and are never stored); a
stored address is recorded in `intfInfo[ifidx].addrs` and mirrored into the
per-interface object when one is bound to that index. -/
theorem addAddress_spec (s : State) (info : AddressInfo) :
    ((∃ e, Manager.addAddress info s = Except.error e) ↔
      (info.flags.land IFA_F_DEPRECATED = 0 ∧
        s.intfInfo.find info.ifidx = none ∧
        s.ignoredIntf.contains info.ifidx = false)) ∧
    (info.flags.land IFA_F_DEPRECATED ≠ 0 →
      Manager.addAddress info s = Except.ok s) ∧
    (∀ all, info.flags.land IFA_F_DEPRECATED = 0 →
      s.intfInfo.find info.ifidx = some all →
      ∃ s₂, Manager.addAddress info s = Except.ok s₂ ∧
        s₂.intfInfo.find info.ifidx =
          some { all with addrs := all.addrs.insert info.ifaddr info } ∧
        (∀ oname o, s.interfacesByIdx.find info.ifidx = some oname →
          s.interfaces.find oname = some o →
          s₂.interfaces.find oname = some (Manager.mirrorAddAddr o info))) := by
  by_cases hdep : info.flags.land IFA_F_DEPRECATED = 0
  · cases hf : s.intfInfo.find info.ifidx with
    | none =>
      cases hign : s.ignoredIntf.contains info.ifidx with
      | false =>
        refine ⟨?_, fun h => absurd hdep h, ?_⟩
        · simp [Manager.addAddress, hdep, hf, hign]
        · intro all _ hsome
          simp at hsome
      | true =>
        refine ⟨?_, fun h => absurd hdep h, ?_⟩
        · simp [Manager.addAddress, hdep, hf, hign]
        · intro all _ hsome
          simp at hsome
    | some all =>
      refine ⟨?_, fun h => absurd hdep h, ?_⟩
      · constructor
        · rintro ⟨e, he⟩
          unfold Manager.addAddress at he
          rw [if_neg (by simpa using hdep), hf] at he
          cases hbyidx : s.interfacesByIdx.find info.ifidx <;>
            simp [hbyidx] at he
        · rintro ⟨-, hnone, -⟩
          simp at hnone
      · intro all₂ _ hsome
        injection hsome with hall
        subst hall
        cases hbyidx : s.interfacesByIdx.find info.ifidx with
        | none =>
          refine ⟨{ s with intfInfo := (s.intfInfo.insert info.ifidx
              { all with addrs := all.addrs.insert info.ifaddr info }) },
            ?_, by simp, ?_⟩
          · simp [Manager.addAddress, hdep, hf, hbyidx]
          · intro oname o ho
            simp at ho
        | some oname =>
          refine ⟨{ s with
              intfInfo := (s.intfInfo.insert info.ifidx
                { all with addrs := all.addrs.insert info.ifaddr info })
              interfaces := (s.interfaces.modify oname
                (fun o => Manager.mirrorAddAddr o info)) },
            ?_, by simp, ?_⟩
          · simp [Manager.addAddress, hdep, hf, hbyidx]
          · intro oname₂ o ho hobj
            injection ho with honame
            subst honame
            exact AssocMap.find_modify_self _ _ _ _ hobj
  · refine ⟨?_, fun _ => by simp [Manager.addAddress, hdep], ?_⟩
    · simp only [Manager.addAddress, if_pos (by simpa using hdep)]
      constructor
      · rintro ⟨e, he⟩
        cases he
      · rintro ⟨h0, -, -⟩
        exact absurd h0 hdep
    · intro all h0 _
      exact absurd h0 hdep

/-- Witness for C3 (amended) at a concrete state: a non-deprecated address
for a known index is stored and mirrored into the bound object. -/
theorem addAddress_spec_witness :
    ∃ s₂,
      Manager.addAddress ⟨1, ⟨InAnyAddr.v4 7, 24⟩, 0, 0⟩
          { intfInfo := ⟨[(1, { intf := ⟨1, 1, some "eth0", none, none, 0⟩ })]⟩
            interfaces := ⟨[("eth0",
              newEthernetInterface "eth0"
                { intf := ⟨1, 1, some "eth0", none, none, 0⟩ } true)]⟩
            interfacesByIdx := ⟨[(1, "eth0")]⟩ } = Except.ok s₂ ∧
        s₂.intfInfo.find 1 =
          some { intf := ⟨1, 1, some "eth0", none, none, 0⟩
                 addrs := AssocMap.empty.insert ⟨InAnyAddr.v4 7, 24⟩
                   ⟨1, ⟨InAnyAddr.v4 7, 24⟩, 0, 0⟩ } ∧
        s₂.interfaces.find "eth0" =
          some (Manager.mirrorAddAddr
            (newEthernetInterface "eth0"
              { intf := ⟨1, 1, some "eth0", none, none, 0⟩ } true)
            ⟨1, ⟨InAnyAddr.v4 7, 24⟩, 0, 0⟩) := by
  obtain ⟨s₂, h₁, h₂, h₃⟩ :=
    (addAddress_spec
      { intfInfo := ⟨[(1, { intf := ⟨1, 1, some "eth0", none, none, 0⟩ })]⟩
        interfaces := ⟨[("eth0",
          newEthernetInterface "eth0"
            { intf := ⟨1, 1, some "eth0", none, none, 0⟩ } true)]⟩
        interfacesByIdx := ⟨[(1, "eth0")]⟩ }
      ⟨1, ⟨InAnyAddr.v4 7, 24⟩, 0, 0⟩).2.2
      { intf := ⟨1, 1, some "eth0", none, none, 0⟩ } (by decide) rfl
  exact ⟨s₂, h₁, h₂, h₃ "eth0"
    (newEthernetInterface "eth0"
      { intf := ⟨1, 1, some "eth0", none, none, 0⟩ } true) rfl rfl⟩

/-- C4 counterexample: a state whose ifidx 2 has an `intfInfo` entry holding
a stored address but no managed object; `removeAddress` leaves the state —
including the stored address — untouched, because its outer lookup is
`interfacesByIdx`, refuting "removeAddress erases the address from
intf_info[ifidx].addrs ... the removal of the intf_info record does not
depend on a managed object existing". -/
theorem removeAddress_no_object_counterexample :
    (({ intfInfo := ⟨[(2,
          { intf := ⟨2, 1, some "eth1", none, none, 0⟩
            addrs := ⟨[(⟨InAnyAddr.v4 7, 24⟩, ⟨2, ⟨InAnyAddr.v4 7, 24⟩, 0, 0⟩)]⟩ })]⟩ } :
        State).intfInfo.contains 2 = true) ∧
    Manager.removeAddress ⟨2, ⟨InAnyAddr.v4 7, 24⟩, 0, 0⟩
        { intfInfo := ⟨[(2,
          { intf := ⟨2, 1, some "eth1", none, none, 0⟩
            addrs := ⟨[(⟨InAnyAddr.v4 7, 24⟩, ⟨2, ⟨InAnyAddr.v4 7, 24⟩, 0, 0⟩)]⟩ })]⟩ } =
      ({ intfInfo := ⟨[(2,
          { intf := ⟨2, 1, some "eth1", none, none, 0⟩
            addrs := ⟨[(⟨InAnyAddr.v4 7, 24⟩, ⟨2, ⟨InAnyAddr.v4 7, 24⟩, 0, 0⟩)]⟩ })]⟩ } :
        State) := by
  exact ⟨by decide, rfl⟩

/-- C4 (amended): `removeAddress` acts only when a managed object is bound
to the ifidx in `interfacesByIdx` (the outer lookup); in that case it erases
the address (keyed by address+prefix) from the object and, when an
`intfInfo` entry also exists, from `intfInfo[ifidx].addrs`; with no managed
object it is a no-op, so the removal of the `intfInfo` record does depend on
a managed object existing. -/
theorem removeAddress_spec (s : State) (info : AddressInfo) :
    (s.interfacesByIdx.find info.ifidx = none →
      Manager.removeAddress info s = s) ∧
    (∀ oname all, s.interfacesByIdx.find info.ifidx = some oname →
      s.intfInfo.find info.ifidx = some all →
      (Manager.removeAddress info s).intfInfo.find info.ifidx =
        some { all with addrs := all.addrs.erase info.ifaddr }) ∧
    (∀ oname o, s.interfacesByIdx.find info.ifidx = some oname →
      s.interfaces.find oname = some o →
      (Manager.removeAddress info s).interfaces.find oname =
        some { o with addrs := o.addrs.erase info.ifaddr }) := by
  cases hbyidx : s.interfacesByIdx.find info.ifidx with
  | none =>
    refine ⟨fun _ => by simp [Manager.removeAddress, hbyidx], ?_, ?_⟩
    · intro oname all h1 h2
      simp at h1
    · intro oname o h1 h2
      simp at h1
  | some oname =>
    refine ⟨fun h => by simp at h, ?_, ?_⟩
    · intro oname₂ all h1 h2
      injection h1 with honame
      subst honame
      simp [Manager.removeAddress, hbyidx, h2]
    · intro oname₂ o h1 hobj
      injection h1 with honame
      subst honame
      cases hinfo : s.intfInfo.find info.ifidx with
      | none =>
        simp only [Manager.removeAddress, hbyidx, hinfo]
        exact AssocMap.find_modify_self _ _ _ _ hobj
      | some all =>
        simp only [Manager.removeAddress, hbyidx, hinfo]
        exact AssocMap.find_modify_self _ _ _ _ hobj

/-- Witness for C4 (amended) at a concrete state: with a managed object
bound, both the registry record and the object lose the address. -/
theorem removeAddress_spec_witness :
    (Manager.removeAddress ⟨1, ⟨InAnyAddr.v4 7, 24⟩, 0, 0⟩
        { intfInfo := ⟨[(1,
            { intf := ⟨1, 1, some "eth0", none, none, 0⟩
              addrs := ⟨[(⟨InAnyAddr.v4 7, 24⟩, ⟨1, ⟨InAnyAddr.v4 7, 24⟩, 0, 0⟩)]⟩ })]⟩
          interfaces := ⟨[("eth0",
            { interfaceName := "eth0"
              intf := ⟨1, 1, some "eth0", none, none, 0⟩
              addrs := ⟨[(⟨InAnyAddr.v4 7, 24⟩, ⟨1, ⟨InAnyAddr.v4 7, 24⟩, 0, 0⟩)]⟩ })]⟩
          interfacesByIdx := ⟨[(1, "eth0")]⟩ }).intfInfo.find 1 =
      some { intf := ⟨1, 1, some "eth0", none, none, 0⟩
             addrs := (⟨[(⟨InAnyAddr.v4 7, 24⟩,
               ⟨1, ⟨InAnyAddr.v4 7, 24⟩, 0, 0⟩)]⟩ :
                 AssocMap IfAddr AddressInfo).erase ⟨InAnyAddr.v4 7, 24⟩ } :=
  (removeAddress_spec
    { intfInfo := ⟨[(1,
        { intf := ⟨1, 1, some "eth0", none, none, 0⟩
          addrs := ⟨[(⟨InAnyAddr.v4 7, 24⟩, ⟨1, ⟨InAnyAddr.v4 7, 24⟩, 0, 0⟩)]⟩ })]⟩
      interfaces := ⟨[("eth0",
        { interfaceName := "eth0"
          intf := ⟨1, 1, some "eth0", none, none, 0⟩
          addrs := ⟨[(⟨InAnyAddr.v4 7, 24⟩, ⟨1, ⟨InAnyAddr.v4 7, 24⟩, 0, 0⟩)]⟩ })]⟩
      interfacesByIdx := ⟨[(1, "eth0")]⟩ }
    ⟨1, ⟨InAnyAddr.v4 7, 24⟩, 0, 0⟩).2.1 "eth0"
    { intf := ⟨1, 1, some "eth0", none, none, 0⟩
      addrs := ⟨[(⟨InAnyAddr.v4 7, 24⟩, ⟨1, ⟨InAnyAddr.v4 7, 24⟩, 0, 0⟩)]⟩ }
    rfl rfl

/-- C6: `addDefGw(i, a)` immediately followed by `removeDefGw(i, a)` leaves
the per-family gateway field of `intfInfo[i]` empty; and `removeDefGw` only
clears the stored gateway (and the bound object's default-gateway property)
when it still equals the address being removed, so removing a stale address
after a newer gateway arrived leaves the newer value in place. -/
theorem addDefGw_removeDefGw_spec (s : State) (i : Nat) (a : InAnyAddr) :
    (∀ all₂,
      (Manager.removeDefGw i a
          (Manager.addDefGw i a s).1).intfInfo.find i = some all₂ →
      gwOf a all₂ = none) ∧
    (∀ all b, s.intfInfo.find i = some all → gwOf a all = some b →
      b ≠ addrVal a →
      ∃ all₂, (Manager.removeDefGw i a s).intfInfo.find i = some all₂ ∧
        gwOf a all₂ = some b) ∧
    (∀ oname o b, s.interfacesByIdx.find i = some oname →
      s.interfaces.find oname = some o → objGwOf a o = some b →
      b ≠ addrVal a →
      ∃ o₂, (Manager.removeDefGw i a s).interfaces.find oname = some o₂ ∧
        objGwOf a o₂ = some b) := by
  refine ⟨?_, ?_, ?_⟩
  · intro all₂ h
    cases hf : s.intfInfo.find i with
    | none =>
      cases hign : s.ignoredIntf.contains i <;> cases a <;>
        simp_all [Manager.addDefGw, Manager.removeDefGw, hf, hign]
    | some all =>
      cases hb : s.interfacesByIdx.find i <;> cases a <;>
        simp_all [Manager.addDefGw, Manager.removeDefGw, gwOf] <;>
          (subst h; rfl)
  · intro all b hfind hgw hne
    cases a with
    | v4 av =>
      simp only [gwOf] at hgw
      have hne4 : ¬ (all.defgw4 = some av) := by
        rw [hgw]
        simpa [addrVal] using hne
      refine ⟨all, ?_, by simp [gwOf, hgw]⟩
      cases hb : s.interfacesByIdx.find i <;>
        simp [Manager.removeDefGw, hfind, hne4, hb]
    | v6 av =>
      simp only [gwOf] at hgw
      have hne6 : ¬ (all.defgw6 = some av) := by
        rw [hgw]
        simpa [addrVal] using hne
      refine ⟨all, ?_, by simp [gwOf, hgw]⟩
      cases hb : s.interfacesByIdx.find i <;>
        simp [Manager.removeDefGw, hfind, hne6, hb]
  · intro oname o b hb hobj hogw hne
    cases hf : s.intfInfo.find i with
    | none =>
      exact ⟨o, by simp [Manager.removeDefGw, hf, hobj], hogw⟩
    | some all =>
      refine ⟨o, ?_, hogw⟩
      cases a with
      | v4 av =>
        simp only [objGwOf] at hogw
        have hcond : ¬ (o.defaultGateway = some av) := by
          rw [hogw]
          simpa [addrVal] using hne
        simp only [Manager.removeDefGw, hf, hb]
        rw [AssocMap.find_modify_self _ _ _ o hobj]
        simp [hcond]
      | v6 av =>
        simp only [objGwOf] at hogw
        have hcond : ¬ (o.defaultGateway6 = some av) := by
          rw [hogw]
          simpa [addrVal] using hne
        simp only [Manager.removeDefGw, hf, hb]
        rw [AssocMap.find_modify_self _ _ _ o hobj]
        simp [hcond]

/-- Witness for C6 at a concrete state: adding then removing the IPv4
gateway 5 on index 1 leaves `defgw4` empty. -/
theorem addDefGw_removeDefGw_spec_witness :
    gwOf (InAnyAddr.v4 5)
      { intf := (⟨1, 1, some "eth0", none, none, 0⟩ : InterfaceInfo) } =
      none :=
  (addDefGw_removeDefGw_spec
      { intfInfo := ⟨[(1, { intf := ⟨1, 1, some "eth0", none, none, 0⟩ })]⟩ }
      1 (InAnyAddr.v4 5)).1
    { intf := ⟨1, 1, some "eth0", none, none, 0⟩ } rfl

/-- C2: on the modelled `handleAdminState` (the source's else-branch contains
the syntactically invalid `if (exist config)` scaffolding, treated as absent
per the specification's §9 note): `initialized` or `linger` removes the
index from the supervisor-state map; `unmanaged` records `false` and, when
`intfInfo` has the entry, calls `createInterface` on it with
`managed = false`; any other string records `true` and, when `intfInfo` has
the entry, calls `createInterface` with `managed = true`. -/
theorem handleAdminState_state_machine (s : State) (st : String) (i : Nat) :
    ((st = "initialized" ∨ st = "linger") →
      Manager.handleAdminState st i s =
        { s with systemdNetworkdEnabled := s.systemdNetworkdEnabled.erase i }) ∧
    (st = "unmanaged" →
      Manager.handleAdminState st i s =
        (match s.intfInfo.find i with
         | some all => Manager.createInterface all false
             { s with systemdNetworkdEnabled :=
                 (s.systemdNetworkdEnabled.insert i false) }
         | none =>
             { s with systemdNetworkdEnabled :=
                 (s.systemdNetworkdEnabled.insert i false) })) ∧
    (st ≠ "initialized" → st ≠ "linger" → st ≠ "unmanaged" →
      Manager.handleAdminState st i s =
        (match s.intfInfo.find i with
         | some all => Manager.createInterface all true
             { s with systemdNetworkdEnabled :=
                 (s.systemdNetworkdEnabled.insert i true) }
         | none =>
             { s with systemdNetworkdEnabled :=
                 (s.systemdNetworkdEnabled.insert i true) })) := by
  refine ⟨?_, ?_, ?_⟩
  · intro h
    unfold Manager.handleAdminState
    rw [if_pos h]
  · intro h
    subst h
    simp [Manager.handleAdminState]
  · intro h1 h2 h3
    simp [Manager.handleAdminState, h1, h2, h3]

/-- Witness for C2 at a concrete input: `"unmanaged"` for an index with no
`intfInfo` entry just records `false` in the supervisor-state map. -/
theorem handleAdminState_state_machine_witness :
    Manager.handleAdminState "unmanaged" 7 ({} : State) =
      { systemdNetworkdEnabled := (AssocMap.empty.insert 7 false) } := by
  have h := (handleAdminState_state_machine {} "unmanaged" 7).2.1 rfl
  simpa using h

/-- C1 counterexample: the disjointness invariant
`ignored_intf ∩ keys(intf_info) = ∅` fails in a reachable state — starting
from the empty registry, an ETHER report for index 1 creates the `intfInfo`
entry, and a later non-ETHER report for the same index inserts 1 into
`ignoredIntf` without erasing that entry, leaving the index in both. -/
theorem addInterface_disjointness_counterexample :
    ((Manager.addInterface ⟨1, 0, none, none, none, 0⟩
        (Manager.addInterface ⟨1, 1, some "eth0", none, none, 0⟩
          ({} : State))).ignoredIntf.contains 1 = true) ∧
    ((Manager.addInterface ⟨1, 0, none, none, none, 0⟩
        (Manager.addInterface ⟨1, 1, some "eth0", none, none, 0⟩
          ({} : State))).intfInfo.contains 1 = true) := by
  exact ⟨by decide, by decide⟩

/-- C1 (amended): every single call to `addInterface` either inserts the
index into `ignoredIntf` leaving `intfInfo` untouched (non-ETHER type, or
name in the ignore list) or upserts `intfInfo` at the index leaving
`ignoredIntf` untouched — but this per-call dichotomy does not give the
claimed reachable-state disjointness of `ignoredIntf` and `intfInfo` keys,
because the ignored-path does not erase an `intfInfo` entry recorded by an
earlier call. -/
theorem addInterface_filters_or_upserts (s : State) (info : InterfaceInfo) :
    ((Manager.addInterface info s).intfInfo = s.intfInfo ∧
     (Manager.addInterface info s).ignoredIntf =
       s.ignoredIntf.insert info.idx) ∨
    ((Manager.addInterface info s).ignoredIntf = s.ignoredIntf ∧
     (Manager.addInterface info s).intfInfo = s.intfInfo.insert info.idx
       (match s.intfInfo.find info.idx with
        | some all => { all with intf := info }
        | none => { intf := info })) := by
  unfold Manager.addInterface
  by_cases ht : info.type ≠ ARPHRD_ETHER
  · rw [if_pos ht]
    exact Or.inl ⟨rfl, rfl⟩
  · rw [if_neg ht]
    cases hn : info.name with
    | none => exact Or.inr (Manager.addInterfaceUpsert_spec info s)
    | some n =>
      by_cases hm : n ∈ s.ignoredNames
      · refine Or.inl ⟨?_, ?_⟩ <;> simp [hm]
      · refine Or.inr ⟨?_, ?_⟩ <;>
          simp [hm, (Manager.addInterfaceUpsert_spec info s).1,
            (Manager.addInterfaceUpsert_spec info s).2]

/-- C5 counterexample: in a state where index 1 both has a managed object
binding and sits in `ignoredIntf` (reachable: an admin state makes the
supervisor state known, an ETHER `addInterface` creates the object, then a
non-ETHER report for the same index inserts it into `ignoredIntf`),
`removeInterface` does not abort and erases the idx binding, the name
binding and `intfInfo[1]`, but leaves 1 in `ignoredIntf` — the
`ignoredIntf.erase` only runs when the idx binding was absent, refuting
"removes idx from ignored_intf if present". -/
theorem removeInterface_keeps_ignored_counterexample :
    (({ intfInfo := ⟨[(1, { intf := ⟨1, 1, some "eth0", none, none, 0⟩ })]⟩
        interfaces := ⟨[("eth0", newEthernetInterface "eth0"
          { intf := ⟨1, 1, some "eth0", none, none, 0⟩ } true)]⟩
        interfacesByIdx := ⟨[(1, "eth0")]⟩
        ignoredIntf := ⟨[1]⟩ } : State).ignoredIntf.contains 1 = true) ∧
    (Option.map (fun s₂ => s₂.ignoredIntf.contains 1)
      (Manager.removeInterface ⟨1, 1, some "eth0", none, none, 0⟩
        { intfInfo := ⟨[(1, { intf := ⟨1, 1, some "eth0", none, none, 0⟩ })]⟩
          interfaces := ⟨[("eth0", newEthernetInterface "eth0"
            { intf := ⟨1, 1, some "eth0", none, none, 0⟩ } true)]⟩
          interfacesByIdx := ⟨[(1, "eth0")]⟩
          ignoredIntf := ⟨[1]⟩ }) = some true) := by
  exact ⟨by decide, by decide⟩

/-- C5 (amended): for a removal whose `info.name` is present,
`removeInterface` aborts exactly when the name resolves to an object and the
idx binding resolves to a different one; otherwise it erases the idx binding
from `interfacesByIdx`, erases the name binding from `interfaces` (when the
name resolves), erases `intfInfo[idx]`, and removes idx from `ignoredIntf`
only when the idx binding was absent from `interfacesByIdx` (not
unconditionally "if present"). -/
theorem removeInterface_spec (s : State) (info : InterfaceInfo) (n : String)
    (hn : info.name = some n) :
    (Manager.removeInterface info s = none ↔
      (s.interfaces.contains n = true ∧
       ∃ oname, s.interfacesByIdx.find info.idx = some oname ∧ oname ≠ n)) ∧
    (∀ s₂, Manager.removeInterface info s = some s₂ →
      s₂.interfacesByIdx = s.interfacesByIdx.erase info.idx ∧
      s₂.intfInfo = s.intfInfo.erase info.idx ∧
      s₂.ignoredIntf =
        (if s.interfacesByIdx.contains info.idx then s.ignoredIntf
         else s.ignoredIntf.erase info.idx) ∧
      s₂.interfaces =
        (if s.interfaces.contains n then s.interfaces.erase n
         else s.interfaces)) := by
  cases hfn : s.interfaces.find n with
  | none =>
    have hcn : s.interfaces.contains n = false := by
      simp [AssocMap.contains, hfn]
    cases hi : s.interfacesByIdx.find info.idx with
    | some oname =>
      constructor
      · simp [Manager.removeInterface, hn, hfn, hi, hcn]
      · intro s₂ h
        simp only [Manager.removeInterface, hn, hfn, hi] at h
        injection h with h
        subst h
        refine ⟨rfl, rfl, ?_, ?_⟩
        · simp [AssocMap.contains, hi]
        · simp [hcn]
    | none =>
      constructor
      · simp [Manager.removeInterface, hn, hfn, hi, hcn]
      · intro s₂ h
        simp only [Manager.removeInterface, hn, hfn, hi] at h
        injection h with h
        subst h
        refine ⟨?_, rfl, ?_, ?_⟩
        · exact (AssocMap.erase_of_not_contains _ _
            (by simp [AssocMap.contains, hi])).symm
        · simp [AssocMap.contains, hi]
        · simp [hcn]
  | some obj =>
    have hcn : s.interfaces.contains n = true := by
      simp [AssocMap.contains, hfn]
    cases hi : s.interfacesByIdx.find info.idx with
    | some oname =>
      by_cases he : oname = n
      · subst he
        constructor
        · simp [Manager.removeInterface, hn, hfn, hi]
        · intro s₂ h
          simp only [Manager.removeInterface, hn, hfn, hi, if_pos rfl] at h
          injection h with h
          subst h
          refine ⟨rfl, rfl, ?_, ?_⟩
          · simp [AssocMap.contains, hi]
          · simp [hcn]
      · constructor
        · simp [Manager.removeInterface, hn, hfn, hi, he, hcn]
        · intro s₂ h
          simp only [Manager.removeInterface, hn, hfn, hi, if_neg he] at h
          simp at h
    | none =>
      constructor
      · simp [Manager.removeInterface, hn, hfn, hi]
      · intro s₂ h
        simp only [Manager.removeInterface, hn, hfn, hi] at h
        injection h with h
        subst h
        refine ⟨?_, rfl, ?_, ?_⟩
        · exact (AssocMap.erase_of_not_contains _ _
            (by simp [AssocMap.contains, hi])).symm
        · simp [AssocMap.contains, hi]
        · simp [hcn]

/-- Witness for C5 (amended) at a concrete state: removing a coherent
interface (the removal evaluates to the empty registry) erases the idx
binding, the name binding and the `intfInfo` entry. -/
theorem removeInterface_spec_witness :
    (({} : State).interfacesByIdx =
        (⟨[(1, "eth0")]⟩ : AssocMap Nat String).erase 1) ∧
    (({} : State).intfInfo =
        (⟨[(1, { intf := ⟨1, 1, some "eth0", none, none, 0⟩ })]⟩ :
          AssocMap Nat AllIntfInfo).erase 1) ∧
    (({} : State).ignoredIntf =
        (if (⟨[(1, "eth0")]⟩ : AssocMap Nat String).contains 1 then
          NatSet.empty
         else NatSet.empty.erase 1)) ∧
    (({} : State).interfaces =
        (if (⟨[("eth0", newEthernetInterface "eth0"
              { intf := ⟨1, 1, some "eth0", none, none, 0⟩ } true)]⟩ :
            AssocMap String EthernetInterface).contains "eth0" then
          (⟨[("eth0", newEthernetInterface "eth0"
            { intf := ⟨1, 1, some "eth0", none, none, 0⟩ } true)]⟩ :
            AssocMap String EthernetInterface).erase "eth0"
         else ⟨[("eth0", newEthernetInterface "eth0"
            { intf := ⟨1, 1, some "eth0", none, none, 0⟩ } true)]⟩)) :=
  (removeInterface_spec
    { intfInfo := ⟨[(1, { intf := ⟨1, 1, some "eth0", none, none, 0⟩ })]⟩
      interfaces := ⟨[("eth0", newEthernetInterface "eth0"
        { intf := ⟨1, 1, some "eth0", none, none, 0⟩ } true)]⟩
      interfacesByIdx := ⟨[(1, "eth0")]⟩ }
    ⟨1, 1, some "eth0", none, none, 0⟩ "eth0" rfl).2 {} (by decide)

end PhosphorNetwork
